import Mathlib

/-!
Verification of the setter-generator core of `rust-derive-builder`
(`src/lib.rs`): the annotation filter `filter_attr`, the synthesizer
`builder_for_struct`, and the entry point `derive`.

The embedding mirrors the structures of the `syn` crate version used by the
source (`MacroInput`, `Body`, `VariantData`, `Field`, `Attribute`,
`MetaItem`) and represents the generated token stream structurally: either
the empty stream (`quote!()`) or one `impl` block holding the generated
setter functions in order.
-/

namespace DeriveBuilder

/-- `syn::AttrStyle`: outer `#[...]` versus inner `#![...]` attributes. -/
inductive AttrStyle
  | Outer
  | Inner
deriving DecidableEq, Repr

/-- `syn::MetaItem`: the parsed content of an attribute.  `filter_attr`
only ever inspects the constructor and the leading identifier, so the
payloads (list items, literal value) are carried as opaque strings. -/
inductive MetaItem
  | Word (ident : String)
  | List (ident : String) (items : List String)
  | NameValue (ident : String) (lit : String)
deriving DecidableEq, Repr

/-- `syn::Attribute`: one attribute as the front end hands it over.
`is_sugared_doc` is true exactly when the attribute originates from a
`///` doc comment (an explicit `#[doc = "..."]` has it false). -/
structure Attribute where
  style : AttrStyle
  value : MetaItem
  is_sugared_doc : Bool
deriving DecidableEq, Repr

/-- `syn::Field` for a braced struct: each field of a braced struct carries
a name (the parser guarantees `Some` for braced structs), a type, and its
attributes.  The type expression is opaque token text. -/
structure Field where
  ident : String
  ty : String
  attrs : List Attribute
deriving DecidableEq, Repr

/-- `syn::VariantData`: the shape of a struct (or enum variant) body. -/
inductive VariantData
  | Struct (fields : List Field)
  | Tuple (tys : List String)
  | Unit
deriving DecidableEq, Repr

/-- `syn::Body`: struct body or enum body (enum variants are opaque here;
`builder_for_struct` never looks inside them). -/
inductive Body
  | Struct (vd : VariantData)
  | Enum (variants : List String)
deriving DecidableEq, Repr

/-- `syn::Generics` as consumed through `split_for_impl`: the three verbatim
token sequences that method produces (generic parameter list with bounds,
bare type-parameter list, where-clause). -/
structure Generics where
  impl_generics : String
  ty_generics : String
  where_clause : String
deriving DecidableEq, Repr

/-- `syn::Generics::split_for_impl`, returning the three token sequences. -/
def Generics.split_for_impl (g : Generics) : String × String × String :=
  (g.impl_generics, g.ty_generics, g.where_clause)

/-- `syn::MacroInput`: the pre-parsed record description handed over by the
front end (`syn::parse_macro_input`). -/
structure MacroInput where
  ident : String
  attrs : List Attribute
  generics : Generics
  body : Body
deriving DecidableEq, Repr

/-- `options::SetterPattern` (the `options` module is not under `src/`; the
three variants are fixed by `lib.rs`'s `match *setter_pattern`). -/
inductive SetterPattern
  | Owned
  | Mutable
  | Immutable
deriving DecidableEq, Repr

/-- Modelled from the spec: setter visibility, one of public or private
(§3 Options; the `options` module defining it is not under `src/`). -/
inductive Visibility
  | Public
  | Private
deriving DecidableEq, Repr

/-- Modelled from the spec: the resolved `Options` value produced by the
absent `options` module — `setters_enabled`, the active pattern, and the
visibility of generated methods (§3).  `builder_for_struct` consumes it
through `setter_enabled()`, `setter_pattern()`, `setter_visibility()`. -/
structure Options where
  setters_enabled : Bool
  pattern : SetterPattern
  visibility : Visibility
deriving DecidableEq, Repr

/-- `Options::setter_enabled`. -/
def Options.setter_enabled (o : Options) : Bool := o.setters_enabled

/-- `Options::setter_pattern`. -/
def Options.setter_pattern (o : Options) : SetterPattern := o.pattern

/-- `Options::setter_visibility`. -/
def Options.setter_visibility (o : Options) : Visibility := o.visibility

/-- `filter_attr` from `src/lib.rs`: keep an attribute for the generated
setter only if it is an outer attribute and either a sugared doc comment
(`is_sugared_doc` with a `doc` name-value) or a `cfg(...)`/`allow(...)`
list; everything else falls through to `false`. -/
def filter_attr (attr : Attribute) : Bool :=
  if attr.style ≠ AttrStyle.Outer then
    false
  else if attr.is_sugared_doc = true then
    match attr.value with
    | MetaItem.NameValue ident _ => if ident = "doc" then true else false
    | _ => false
  else
    match attr.value with
    | MetaItem.List ident _ =>
        match ident with
        | "cfg" => true
        | "allow" => true
        | _ => false
    | _ => false

/-- The receiver of a generated setter: `self`, `&mut self`, or `&self`. -/
inductive RecvKind
  | SelfValue
  | SelfMutRef
  | SelfRef
deriving DecidableEq, Repr

/-- The return type of a generated setter: `Self` or `&mut Self`. -/
inductive RetKind
  | SelfValue
  | SelfMutRef
deriving DecidableEq, Repr

/-- One generated setter function, structurally: the kept attributes, the
visibility token, the function name, its generic parameters (each a name
with the target type of its `Into` bound), the receiver, the value
parameter's generic type name, the return type, whether the body starts
from `self.clone()` rather than `self`, and which field the body assigns
`value.into()` to. -/
structure SetterFn where
  attrs : List Attribute
  vis : Visibility
  name : String
  generics : List (String × String)
  recv : RecvKind
  value_ty : String
  ret : RetKind
  clones_receiver : Bool
  assigned_field : String
deriving DecidableEq, Repr

/-- The output token stream of `builder_for_struct`, structurally: either
`quote!()` (empty) or the single `#[allow(dead_code)] impl` block carrying
the split generics, the record name, and the setters in emission order. -/
inductive Tokens
  | Empty
  | ImplBlock (impl_generics : String) (name : String) (ty_generics : String)
      (where_clause : String) (funcs : List SetterFn)
deriving DecidableEq, Repr

/-- The setters of a token stream (none for the empty stream). -/
def Tokens.setters : Tokens → List SetterFn
  | Tokens.Empty => []
  | Tokens.ImplBlock _ _ _ _ funcs => funcs

/-- The body of the per-field closure inside `builder_for_struct`: filter
the field's attributes with `filter_attr`, read the visibility from the
options, and emit the template selected by `match *setter_pattern`.  All
three templates name the function after the field, introduce the single
generic parameter `VALUE: Into<#ty>`, and assign `value.into()` to the
field; they differ in receiver, return type, and whether the receiver is
cloned first. -/
def make_setter (setter_pattern : SetterPattern) (opts : Options) (f : Field) :
    SetterFn :=
  let attrs := f.attrs.filter (fun a => filter_attr a)
  let vis := opts.setter_visibility
  match setter_pattern with
  | SetterPattern.Owned =>
      { attrs := attrs, vis := vis, name := f.ident,
        generics := [("VALUE", f.ty)], recv := RecvKind.SelfValue,
        value_ty := "VALUE", ret := RetKind.SelfValue,
        clones_receiver := false, assigned_field := f.ident }
  | SetterPattern.Mutable =>
      { attrs := attrs, vis := vis, name := f.ident,
        generics := [("VALUE", f.ty)], recv := RecvKind.SelfMutRef,
        value_ty := "VALUE", ret := RetKind.SelfMutRef,
        clones_receiver := false, assigned_field := f.ident }
  | SetterPattern.Immutable =>
      { attrs := attrs, vis := vis, name := f.ident,
        generics := [("VALUE", f.ty)], recv := RecvKind.SelfRef,
        value_ty := "VALUE", ret := RetKind.SelfValue,
        clones_receiver := true, assigned_field := f.ident }

/-- `builder_for_struct` from `src/lib.rs`.  In the source the options are
resolved first by `Options::from(ast.attrs)` (the `options` module, not
under `src/`), so the resolved `Options` value is taken here as an input,
matching the spec's `synthesize(record, options)` contract.  If setters
are disabled the function returns `quote!()`; a body other than a braced
struct hits `panic!`, modelled as `Except.error` with the panic message;
otherwise one setter per field is emitted, in field order, inside one
`impl` block carrying the record's split generics. -/
def builder_for_struct (opts : Options) (ast : MacroInput) :
    Except String Tokens :=
  if !opts.setter_enabled then
    Except.ok Tokens.Empty
  else
    let setter_pattern := opts.setter_pattern
    match ast.body with
    | Body.Struct (VariantData.Struct fields) =>
        let (impl_generics, ty_generics, where_clause) :=
          ast.generics.split_for_impl
        let funcs := fields.map (fun f => make_setter setter_pattern opts f)
        Except.ok (Tokens.ImplBlock impl_generics ast.ident ty_generics
          where_clause funcs)
    | _ => Except.error "#[derive(Builder)] can only be used with braced structs"

/-- `env_logger::init()`: succeeds and marks the process-global logger as
initialized the first time; returns an error once a logger is already set.
The state is the process-global "a logger has been installed" flag. -/
def env_logger_init (logger_initialized : Bool) : Except String Bool :=
  if logger_initialized then
    Except.error "attempted to initialize the logger after it was already initialized"
  else
    Except.ok true

/-- `derive` from `src/lib.rs`, the per-record entry point: it first runs
`env_logger::init().unwrap()` (the `.unwrap()` turns a second-initialization
error into a panic, modelled as `Except.error`), then hands the pre-parsed
record description to `builder_for_struct`.  The returned pair carries the
output tokens and the logger flag after the call. -/
def derive (logger_initialized : Bool) (opts : Options) (ast : MacroInput) :
    Except String (Tokens × Bool) :=
  match env_logger_init logger_initialized with
  | Except.error e => Except.error e
  | Except.ok st =>
      match builder_for_struct opts ast with
      | Except.error e => Except.error e
      | Except.ok t => Except.ok (t, st)

/-! Spec-side comparison definitions: these follow the specification's
words (§4.2, §4.3, §6), to be compared with the definitions embedded from
the source above. -/

/-- Per the spec (§4.3 / §8.2), the parameter/return ownership shape each
pattern must give every setter: receiver kind, return kind, and whether
the body makes a full copy of the record before writing the field. -/
def spec_shape : SetterPattern → RecvKind × RetKind × Bool
  | SetterPattern.Owned => (RecvKind.SelfValue, RetKind.SelfValue, false)
  | SetterPattern.Mutable => (RecvKind.SelfMutRef, RetKind.SelfMutRef, false)
  | SetterPattern.Immutable => (RecvKind.SelfRef, RetKind.SelfValue, true)

/-- Per the spec (§4.2, §6): a documentation annotation — a `doc`
name-value, whether written as a sugared `///` comment or spelled out as
an explicit attribute. -/
def is_doc_attr (a : Attribute) : Bool :=
  match a.value with
  | MetaItem.NameValue ident _ => ident = "doc"
  | _ => false

/-- Per the spec (§4.2, §6): a conditional-compilation annotation. -/
def is_cfg_attr (a : Attribute) : Bool :=
  match a.value with
  | MetaItem.List ident _ => ident = "cfg"
  | _ => false

/-- Per the spec (§4.2, §6): a lint-suppression annotation. -/
def is_lint_attr (a : Attribute) : Bool :=
  match a.value with
  | MetaItem.List ident _ => ident = "allow"
  | _ => false

/-! Concrete sample inputs used by witnesses and counterexamples. -/

/-- A sugared doc comment attribute, as the parser produces for `///`. -/
def attr_doc_comment : Attribute :=
  ⟨AttrStyle.Outer, MetaItem.NameValue "doc" "/// lorem", true⟩

/-- An explicit `#[doc = "..."]` attribute: same `doc` name-value, but not
sugared. -/
def attr_doc_explicit : Attribute :=
  ⟨AttrStyle.Outer, MetaItem.NameValue "doc" "lorem", false⟩

/-- A conditional-compilation attribute `#[cfg(...)]`. -/
def attr_cfg : Attribute :=
  ⟨AttrStyle.Outer, MetaItem.List "cfg" ["target_os = macos"], false⟩

/-- A lint-suppression attribute `#[allow(...)]`. -/
def attr_allow : Attribute :=
  ⟨AttrStyle.Outer, MetaItem.List "allow" ["non_snake_case"], false⟩

/-- An unrelated attribute that the whitelist must drop. -/
def attr_other : Attribute :=
  ⟨AttrStyle.Outer, MetaItem.List "serde" ["skip"], false⟩

/-- A sample field carrying one annotation of each sample kind. -/
def sample_field : Field :=
  ⟨"ipsum", "String", [attr_doc_comment, attr_cfg, attr_allow, attr_other]⟩

/-- A second sample field with a generic type. -/
def sample_field2 : Field := ⟨"dolor", "T", []⟩

/-- Sample generics: one bounded type parameter, no where-clause. -/
def sample_generics : Generics := ⟨"<T: Clone>", "<T>", ""⟩

/-- A sample braced-struct record description with two fields. -/
def sample_ast : MacroInput :=
  ⟨"Lorem", [], sample_generics,
   Body.Struct (VariantData.Struct [sample_field, sample_field2])⟩

/-- A tuple-style record description (no named fields). -/
def tuple_ast : MacroInput :=
  ⟨"Pair", [], ⟨"", "", ""⟩, Body.Struct (VariantData.Tuple ["i32", "i32"])⟩

/-- A braced record description with an empty field list. -/
def empty_fields_ast : MacroInput :=
  ⟨"Hollow", [], ⟨"", "", ""⟩, Body.Struct (VariantData.Struct [])⟩

/-- Default options per the spec: enabled, Mutable, Public. -/
def opts_default : Options :=
  ⟨true, SetterPattern.Mutable, Visibility.Public⟩

/-- Options with setters disabled. -/
def opts_disabled : Options :=
  ⟨false, SetterPattern.Mutable, Visibility.Public⟩

/-! Helper lemmas shared by the claim theorems. -/

/-- With setters enabled and a braced-struct body, `builder_for_struct`
returns the impl block whose setters are the per-field template output in
field order. -/
lemma builder_for_struct_enabled (opts : Options) (ast : MacroInput)
    (fields : List Field) (he : opts.setters_enabled = true)
    (hb : ast.body = Body.Struct (VariantData.Struct fields)) :
    builder_for_struct opts ast =
      Except.ok (Tokens.ImplBlock ast.generics.impl_generics ast.ident
        ast.generics.ty_generics ast.generics.where_clause
        (fields.map (make_setter opts.pattern opts))) := by
  simp [builder_for_struct, Options.setter_enabled, Options.setter_pattern,
    Generics.split_for_impl, he, hb]

/-- With setters disabled, `builder_for_struct` returns the empty stream. -/
lemma builder_for_struct_disabled (opts : Options) (ast : MacroInput)
    (he : opts.setters_enabled = false) :
    builder_for_struct opts ast = Except.ok Tokens.Empty := by
  simp [builder_for_struct, Options.setter_enabled, he]

/-- Each template names the setter after the field. -/
@[simp] lemma make_setter_name (p : SetterPattern) (opts : Options)
    (f : Field) : (make_setter p opts f).name = f.ident := by
  cases p <;> rfl

/-- Each template assigns the argument to the field it was made for. -/
@[simp] lemma make_setter_assigned_field (p : SetterPattern) (opts : Options)
    (f : Field) : (make_setter p opts f).assigned_field = f.ident := by
  cases p <;> rfl

/-- Each template's only generic parameter is `VALUE`, bounded by
convertibility into the field's declared type. -/
@[simp] lemma make_setter_generics (p : SetterPattern) (opts : Options)
    (f : Field) : (make_setter p opts f).generics = [("VALUE", f.ty)] := by
  cases p <;> rfl

/-- Each template takes its visibility from the resolved options. -/
@[simp] lemma make_setter_vis (p : SetterPattern) (opts : Options)
    (f : Field) : (make_setter p opts f).vis = opts.setter_visibility := by
  cases p <;> rfl

/-- Each template's attributes are the `filter_attr`-kept field
attributes, in their original relative order. -/
@[simp] lemma make_setter_attrs (p : SetterPattern) (opts : Options)
    (f : Field) :
    (make_setter p opts f).attrs = f.attrs.filter (fun a => filter_attr a) := by
  cases p <;> rfl

/-- Each template's ownership shape matches the spec's per-pattern
description. -/
lemma make_setter_shape (p : SetterPattern) (opts : Options) (f : Field) :
    ((make_setter p opts f).recv, (make_setter p opts f).ret,
      (make_setter p opts f).clones_receiver) = spec_shape p := by
  cases p <;> rfl

/-- Concrete options for exercising the Immutable pattern with private
visibility. -/
def opts_imm_private : Options :=
  ⟨true, SetterPattern.Immutable, Visibility.Private⟩

/-- The tokens `builder_for_struct` produces for `sample_ast` under the
default options. -/
def sample_tokens : Tokens :=
  Tokens.ImplBlock "<T: Clone>" "Lorem" "<T>" ""
    ([sample_field, sample_field2].map
      (make_setter SetterPattern.Mutable opts_default))

/-- The tokens `builder_for_struct` produces for `sample_ast` under
`opts_imm_private`. -/
def sample_tokens_imm : Tokens :=
  Tokens.ImplBlock "<T: Clone>" "Lorem" "<T>" ""
    ([sample_field, sample_field2].map
      (make_setter SetterPattern.Immutable opts_imm_private))

/-- C1: with setters enabled, every setter of the generated unit has the
parameter/return ownership shape fixed by the resolved pattern — Owned:
`self` in, `Self` out, no clone; Mutable: `&mut self` in, `&mut Self` out,
no clone; Immutable: `&self` in, the receiver is cloned, the converted
argument is written into the copy's field, and the copy is returned by
value. -/
theorem c1_setter_shape (opts : Options) (ast : MacroInput)
    (fields : List Field) (t : Tokens)
    (he : opts.setters_enabled = true)
    (hb : ast.body = Body.Struct (VariantData.Struct fields))
    (ht : builder_for_struct opts ast = Except.ok t) :
    ∀ s ∈ t.setters,
      (s.recv, s.ret, s.clones_receiver) = spec_shape opts.pattern ∧
      s.assigned_field = s.name := by
  rw [builder_for_struct_enabled opts ast fields he hb] at ht
  injection ht with h
  subst h
  intro s hs
  simp only [Tokens.setters, List.mem_map] at hs
  obtain ⟨f, _, rfl⟩ := hs
  exact ⟨make_setter_shape opts.pattern opts f, by simp⟩

/-- C1 witness: the Immutable/private instance at the concrete two-field
sample record. -/
theorem c1_witness :
    opts_imm_private.setters_enabled = true ∧
    sample_ast.body =
      Body.Struct (VariantData.Struct [sample_field, sample_field2]) ∧
    ∀ s ∈ sample_tokens_imm.setters,
      (s.recv, s.ret, s.clones_receiver) = spec_shape opts_imm_private.pattern ∧
      s.assigned_field = s.name :=
  ⟨rfl, rfl,
    c1_setter_shape opts_imm_private sample_ast [sample_field, sample_field2]
      sample_tokens_imm rfl rfl rfl⟩

/-- C2: with setters disabled, synthesis returns the empty token stream —
no error, zero setters — for every record description. -/
theorem c2_disabled_yields_empty (opts : Options) (ast : MacroInput)
    (hd : opts.setters_enabled = false) :
    builder_for_struct opts ast = Except.ok Tokens.Empty ∧
    Tokens.Empty.setters = [] :=
  ⟨builder_for_struct_disabled opts ast hd, rfl⟩

/-- C2 witness: the disabled options at the concrete sample record. -/
theorem c2_witness :
    opts_disabled.setters_enabled = false ∧
    (builder_for_struct opts_disabled sample_ast = Except.ok Tokens.Empty ∧
      Tokens.Empty.setters = []) :=
  ⟨rfl, c2_disabled_yields_empty opts_disabled sample_ast rfl⟩

/-- C3 counterexample: a braced record with an empty field list and
setters enabled does not fail — synthesis succeeds and produces a
generated unit with zero setters, contradicting the claim that every
record with no named fields is rejected with a diagnostic. -/
theorem c3_counterexample :
    opts_default.setters_enabled = true ∧
    empty_fields_ast.body = Body.Struct (VariantData.Struct []) ∧
    builder_for_struct opts_default empty_fields_ast =
      Except.ok (Tokens.ImplBlock "" "Hollow" "" "" []) :=
  ⟨rfl, rfl, rfl⟩

/-- C3 amended: with setters enabled, a record whose body is not a braced
struct (tuple-style, unit, or enum) fails with the fixed diagnostic
"#[derive(Builder)] can only be used with braced structs" — which does not
name the record — and no unit is produced; a braced record with an empty
field list instead succeeds with a generated unit containing zero
setters. -/
theorem c3_amended_rejection (opts : Options) (ast : MacroInput)
    (he : opts.setters_enabled = true) :
    ((∀ fields : List Field,
        ast.body ≠ Body.Struct (VariantData.Struct fields)) →
      builder_for_struct opts ast =
        Except.error "#[derive(Builder)] can only be used with braced structs") ∧
    (ast.body = Body.Struct (VariantData.Struct []) →
      builder_for_struct opts ast =
        Except.ok (Tokens.ImplBlock ast.generics.impl_generics ast.ident
          ast.generics.ty_generics ast.generics.where_clause [])) := by
  constructor
  · intro hnb
    cases hb : ast.body with
    | Struct vd =>
      cases vd with
      | Struct fields => exact absurd hb (hnb fields)
      | Tuple tys =>
          simp [builder_for_struct, Options.setter_enabled, he, hb]
      | Unit =>
          simp [builder_for_struct, Options.setter_enabled, he, hb]
    | Enum vs =>
        simp [builder_for_struct, Options.setter_enabled, he, hb]
  · intro hb
    simpa using builder_for_struct_enabled opts ast [] he hb

/-- C3 witness: the tuple-style sample record is rejected with the fixed
diagnostic. -/
theorem c3_witness :
    opts_default.setters_enabled = true ∧
    builder_for_struct opts_default tuple_ast =
      Except.error "#[derive(Builder)] can only be used with braced structs" :=
  ⟨rfl,
    (c3_amended_rejection opts_default tuple_ast rfl).1
      (by intro fields h; simp [tuple_ast] at h)⟩

/-- C4 (code bug): an explicit documentation attribute — a `doc`
name-value written as `#[doc = "..."]` rather than as a sugared `///`
comment — is a documentation annotation per the spec's whitelist, and an
outer attribute, yet `filter_attr` drops it, because the `doc` name-value
case is only reached when `is_sugared_doc` is true.  This contradicts the
crate's own module documentation, which lists `#[doc = ...]` among the
attribute forms copied to the setter. -/
theorem c4_explicit_doc_dropped :
    is_doc_attr attr_doc_explicit = true ∧
    attr_doc_explicit.style = AttrStyle.Outer ∧
    filter_attr attr_doc_explicit = false :=
  ⟨rfl, rfl, rfl⟩

/-- C5: with setters enabled and a braced body, the generated unit holds
exactly one setter per field, and the setter names read off in emission
order are exactly the field names in declaration order. -/
theorem c5_one_setter_per_field (opts : Options) (ast : MacroInput)
    (fields : List Field) (t : Tokens)
    (he : opts.setters_enabled = true)
    (hb : ast.body = Body.Struct (VariantData.Struct fields))
    (ht : builder_for_struct opts ast = Except.ok t) :
    t.setters.length = fields.length ∧
    t.setters.map (fun s => s.name) = fields.map (fun f => f.ident) := by
  rw [builder_for_struct_enabled opts ast fields he hb] at ht
  injection ht with h
  subst h
  exact ⟨by simp [Tokens.setters],
    by simp [Tokens.setters, List.map_map, Function.comp_def]⟩

/-- C5 witness: the two-field sample record under the default options. -/
theorem c5_witness :
    opts_default.setters_enabled = true ∧
    sample_tokens.setters.length = 2 ∧
    sample_tokens.setters.map (fun s => s.name) = ["ipsum", "dolor"] :=
  ⟨rfl,
    (c5_one_setter_per_field opts_default sample_ast
      [sample_field, sample_field2] sample_tokens rfl rfl rfl).1,
    (c5_one_setter_per_field opts_default sample_ast
      [sample_field, sample_field2] sample_tokens rfl rfl rfl).2⟩

/-- C6: each generated setter is named exactly after its field, and its
single generic parameter `VALUE` is bounded by convertibility into the
field's declared type (the argument is coerced, not required to equal the
field's type). -/
theorem c6_setter_name_and_into_bound (opts : Options) (ast : MacroInput)
    (fields : List Field) (t : Tokens)
    (he : opts.setters_enabled = true)
    (hb : ast.body = Body.Struct (VariantData.Struct fields))
    (ht : builder_for_struct opts ast = Except.ok t) :
    t.setters.map (fun s => (s.name, s.generics)) =
      fields.map (fun f => (f.ident, [("VALUE", f.ty)])) := by
  rw [builder_for_struct_enabled opts ast fields he hb] at ht
  injection ht with h
  subst h
  simp [Tokens.setters, List.map_map, Function.comp_def]

/-- C6 witness: the sample record's setters carry field names and
`Into`-bound targets pairwise. -/
theorem c6_witness :
    opts_default.setters_enabled = true ∧
    sample_tokens.setters.map (fun s => (s.name, s.generics)) =
      [("ipsum", [("VALUE", "String")]), ("dolor", [("VALUE", "T")])] :=
  ⟨rfl,
    c6_setter_name_and_into_bound opts_default sample_ast
      [sample_field, sample_field2] sample_tokens rfl rfl rfl⟩

/-- C7: every setter of a generated unit carries the same visibility,
equal to the resolved options' visibility. -/
theorem c7_uniform_visibility (opts : Options) (ast : MacroInput)
    (fields : List Field) (t : Tokens)
    (he : opts.setters_enabled = true)
    (hb : ast.body = Body.Struct (VariantData.Struct fields))
    (ht : builder_for_struct opts ast = Except.ok t) :
    ∀ s ∈ t.setters, s.vis = opts.visibility := by
  rw [builder_for_struct_enabled opts ast fields he hb] at ht
  injection ht with h
  subst h
  intro s hs
  simp only [Tokens.setters, List.mem_map] at hs
  obtain ⟨f, _, rfl⟩ := hs
  simp [Options.setter_visibility]

/-- C7 witness: under Immutable/private options every sample setter is
private. -/
theorem c7_witness :
    opts_imm_private.setters_enabled = true ∧
    ∀ s ∈ sample_tokens_imm.setters, s.vis = opts_imm_private.visibility :=
  ⟨rfl,
    c7_uniform_visibility opts_imm_private sample_ast
      [sample_field, sample_field2] sample_tokens_imm rfl rfl rfl⟩

/-- C8: the record's generics are reproduced verbatim on the surrounding
impl block — the `split_for_impl` components and the record name frame the
generated unit — while each individual setter's generic parameter list is
exactly the one conversion-source parameter `VALUE`. -/
theorem c8_generics_threaded_on_impl (opts : Options) (ast : MacroInput)
    (fields : List Field) (t : Tokens)
    (he : opts.setters_enabled = true)
    (hb : ast.body = Body.Struct (VariantData.Struct fields))
    (ht : builder_for_struct opts ast = Except.ok t) :
    t = Tokens.ImplBlock ast.generics.impl_generics ast.ident
        ast.generics.ty_generics ast.generics.where_clause t.setters ∧
    ∀ s ∈ t.setters, s.generics.map Prod.fst = ["VALUE"] := by
  rw [builder_for_struct_enabled opts ast fields he hb] at ht
  injection ht with h
  subst h
  refine ⟨rfl, ?_⟩
  intro s hs
  simp only [Tokens.setters, List.mem_map] at hs
  obtain ⟨f, _, rfl⟩ := hs
  simp

/-- C8 witness: the sample record's bounded generic parameter, bare
parameter list, and (empty) where-clause frame the impl block, and each
setter's generics are just `VALUE`. -/
theorem c8_witness :
    opts_default.setters_enabled = true ∧
    (sample_tokens = Tokens.ImplBlock "<T: Clone>" "Lorem" "<T>" ""
        sample_tokens.setters ∧
      ∀ s ∈ sample_tokens.setters, s.generics.map Prod.fst = ["VALUE"]) :=
  ⟨rfl,
    c8_generics_threaded_on_impl opts_default sample_ast
      [sample_field, sample_field2] sample_tokens rfl rfl rfl⟩

/-- C9 (code bug): the entry point is not independent of prior
invocations — `derive` runs `env_logger::init().unwrap()` first, and the
logger is process-global state, so on the same record description the
first invocation succeeds while any later invocation in the same process
panics before reaching the synthesizer.  One record's run therefore
changes the outcome for its siblings, refuting batch independence. -/
theorem c9_logger_state_breaks_independence :
    derive false opts_default sample_ast =
      Except.ok (sample_tokens, true) ∧
    derive true opts_default sample_ast =
      Except.error
        "attempted to initialize the logger after it was already initialized" :=
  ⟨rfl, rfl⟩

/-- C10: the disabled check precedes the record-shape check — with
setters disabled, synthesis returns the empty stream with no error even
for records with no named fields (the unsupported-shape rejection is never
reached). -/
theorem c10_disabled_check_precedes_shape_check (opts : Options)
    (ast : MacroInput) (hd : opts.setters_enabled = false)
    (hnb : ∀ fields : List Field,
      ast.body ≠ Body.Struct (VariantData.Struct fields)) :
    builder_for_struct opts ast = Except.ok Tokens.Empty :=
  builder_for_struct_disabled opts ast hd

/-- C10 witness: the tuple-style record (no named fields) with setters
disabled yields the empty stream, not the shape error. -/
theorem c10_witness :
    opts_disabled.setters_enabled = false ∧
    builder_for_struct opts_disabled tuple_ast = Except.ok Tokens.Empty :=
  ⟨rfl,
    c10_disabled_check_precedes_shape_check opts_disabled tuple_ast rfl
      (by intro fields h; simp [tuple_ast] at h)⟩

end DeriveBuilder
